import Mathlib

/-!
Shallow embedding of `src/script.py` (a small meta-search Flask app) and
verification of its specification claims.

Python JSON values are modelled by the inductive type `J` (numbers as
rationals), Python dictionaries by association lists, wall-clock time by
integer seconds, and each outbound network call by an explicit outcome
parameter.  Exceptions are modelled by `PyExc` and `Except`.
-/

set_option autoImplicit false

namespace Onyx

/-- JSON-like Python values, as produced by `r.json()`.  JSON numbers are
modelled as rationals. -/
inductive J where
  | null
  | num (q : ℚ)
  | str (s : String)
  | arr (l : List J)
  | obj (l : List (String × J))

/-- Python truthiness of a JSON value (`if x:`): `None`, `0`, `""`, `[]`,
and the empty dict are falsy. -/
def jTruthy : J → Bool
  | .null => false
  | .num q => q != 0
  | .str s => s != ""
  | .arr l => !l.isEmpty
  | .obj l => !l.isEmpty

/-- Key lookup in a Python dict (first binding wins; dicts keep keys unique). -/
def jLookup : List (String × J) → String → Option J
  | [], _ => none
  | (k, v) :: t, key => if k = key then some v else jLookup t key

/-- Python `a or b` on JSON values: `a` if truthy, else `b`. -/
def pyOr (a b : J) : J := if jTruthy a then a else b

/-- A raised Python exception.  `httpError` is `requests.HTTPError` as raised
by `raise_for_status()` on a non-2xx response (carrying the status code and
body); every other exception is `other` with `msg = str(e)`. -/
inductive PyExc where
  | httpError (code : Int) (body : String)
  | other (msg : String)
deriving DecidableEq

/-- Message of Python's `TypeError` for `"..." + 403` (string + int). -/
def typeConcatError : PyExc := .other "can only concatenate str (not \"int\") to str"

/-- Message used for `AttributeError` raised by `.get` on a non-dict value. -/
def attrGetMsg : String := "object has no attribute get"

/-- A dynamically-typed Python value appearing in the `+` chains of the
error handlers (lines 229 and 283). -/
inductive PyVal where
  | vstr (s : String)
  | vint (n : Int)

/-- Python `+` on such values: `str + str` concatenates, `int + int` adds,
mixing `str` and `int` raises `TypeError`. -/
def pyAdd : PyVal → PyVal → Except PyExc PyVal
  | .vstr a, .vstr b => .ok (.vstr (a ++ b))
  | .vint a, .vint b => .ok (.vint (a + b))
  | _, _ => .error typeConcatError

/-- Lines 229 / 283: the except-handler expression
`"HTTP " + e.response.status_code + ": " + e.response.text[:200] + "…"`,
evaluated left to right with Python's dynamic typing (`status_code` is an
`int`, `text` a `str`). -/
def httpErrorMessage (code : Int) (body : String) : Except PyExc String := do
  let a ← pyAdd (.vstr "HTTP ") (.vint code)
  let b ← pyAdd a (.vstr ": ")
  let c ← pyAdd b (.vstr (body.take 200))
  let d ← pyAdd c (.vstr "…")
  match d with
  | .vstr s => .ok s
  | .vint _ => .error (.other "not a string")

/-! ### Response cache (lines 26-46) -/

/-- `CacheKey = Tuple[str, int, str]` (line 27). -/
abbrev CacheKey := String × Int × String

/-- The `_cache` dict: key ↦ (timestamp, payload) (line 28). -/
abbrev Cache := List (CacheKey × (Int × J))

/-- `CACHE_TTL_SEC = 60` (line 29). -/
def CACHE_TTL_SEC : Int := 60

/-- Python `dict.get` on the cache. -/
def dictGet : Cache → CacheKey → Option (Int × J)
  | [], _ => none
  | (k, v) :: t, key => if k = key then some v else dictGet t key

/-- Python `dict.pop(key, None)`: remove the binding for `key`. -/
def dictPop : Cache → CacheKey → Cache
  | [], _ => []
  | e :: t, key => if e.1 = key then dictPop t key else e :: dictPop t key

/-- Python `dict[key] = value`: overwrite the binding for `key`. -/
def dictSet (c : Cache) (key : CacheKey) (v : Int × J) : Cache :=
  (key, v) :: dictPop c key

/-- `_cache_get` (lines 34-42).  Takes the current wall clock `now`
explicitly; returns the payload (or `none`) together with the possibly
mutated store (an expired entry is popped). -/
def _cache_get (now : Int) (c : Cache) (key : CacheKey) : Option J × Cache :=
  match dictGet c key with
  | none => (none, c)
  | some (ts, payload) =>
    if now - ts > CACHE_TTL_SEC then (none, dictPop c key)
    else (some payload, c)

/-- `_cache_set` (lines 45-46): store the value with the current timestamp. -/
def _cache_set (now : Int) (c : Cache) (key : CacheKey) (value : J) : Cache :=
  dictSet c key (now, value)

/-! ### Daily request counter (lines 31-32 and 81-86) -/

/-- `_request_counter`: a date string and a count. -/
structure Counter where
  date : String
  count : Int
deriving DecidableEq

/-- Lines 82-86: the counter update performed after a successful upstream
call — reset to zero first when the observed date changed, then increment. -/
def recordCall (c : Counter) (today : String) : Counter :=
  let c' := if c.date ≠ today then { date := today, count := 0 } else c
  { c' with count := c'.count + 1 }

/-! ### Search client `google_search` (lines 53-88) -/

/-- Line 59: `start_index = max(1, min(start_index, 91))`. -/
def clampStart (start_index : Int) : Int := max 1 (min start_index 91)

/-- Line 60: `num = max(1, min(num, 10))`. -/
def clampNum (num : Int) : Int := max 1 (min num 10)

/-- Line 62 (with the reassignments of lines 59-60 substituted in):
`key = (query + f"|{num}", start_index, search_type or "web")` where
`num` and `start_index` hold the clamped values. -/
def cacheKeyOf (query : String) (num start_index : Int) (search_type : Option String) :
    CacheKey :=
  (query ++ "|" ++ toString (clampNum num), clampStart start_index,
    search_type.getD "web")

/-- The parameters of an actually issued upstream request (lines 67-77). -/
structure GRequest where
  q : String
  num : Int
  start : Int
  searchType : Option String
deriving DecidableEq

/-- The process-wide mutable state touched by `google_search`. -/
structure SearchState where
  cache : Cache
  counter : Counter

/-- What the network would answer if the upstream call is issued:
a non-2xx response (so `raise_for_status` raises), some other transport or
JSON-decoding failure, or a 2xx response with parsed JSON body. -/
inductive NetOutcome where
  | httpError (code : Int) (body : String)
  | transportError (msg : String)
  | ok (data : J)

/-- Result of one `google_search` invocation: the returned payload or the
raised exception, the final state, and the upstream request that was
actually issued (`none` on a cache hit or configuration failure). -/
structure GOut where
  ret : Except PyExc J
  st : SearchState
  request : Option GRequest

/-- Lines 77-88: the network part of `google_search`, reached on a cache
miss: issue the request, raise on failure, otherwise record the call in the
counter, store the payload in the cache and return it. -/
def googleNetwork (net : NetOutcome) (now : Int) (today : String) (st : SearchState)
    (key : CacheKey) (query : String) (start' num' : Int)
    (search_type : Option String) : GOut :=
  let req : GRequest := { q := query, num := num', start := start', searchType := search_type }
  match net with
  | .httpError code body =>
    { ret := .error (.httpError code body), st := st, request := some req }
  | .transportError msg =>
    { ret := .error (.other msg), st := st, request := some req }
  | .ok data =>
    let counter' := recordCall st.counter today
    let cache' := _cache_set now st.cache key data
    { ret := .ok data, st := { cache := cache', counter := counter' }, request := some req }

/-- `google_search` (lines 53-88).  `cfgOK` is whether both `API_KEY` and
`CX` are set (line 54); `now`/`today` are the wall clock; `net` is the
outcome the network would produce for this request.  Note line 64
(`if cached:`): the cached payload is subjected to Python truthiness, so an
empty payload behaves like a miss. -/
def google_search (cfgOK : Bool) (net : NetOutcome) (now : Int) (today : String)
    (st : SearchState) (query : String) (start_index : Int) (num : Int)
    (search_type : Option String) : GOut :=
  if ¬ cfgOK then
    { ret := .error (.other "Variables d'environnement manquantes: GOOGLE_API_KEY et GOOGLE_CSE_ID"),
      st := st, request := none }
  else
    let start' := clampStart start_index
    let num' := clampNum num
    let key := cacheKeyOf query num start_index search_type
    let gc := _cache_get now st.cache key
    let st1 : SearchState := { st with cache := gc.2 }
    match gc.1 with
    | some payload =>
      if jTruthy payload then { ret := .ok payload, st := st1, request := none }
      else googleNetwork net now today st1 key query start' num' search_type
    | none => googleNetwork net now today st1 key query start' num' search_type

/-! ### String helpers used by the routes -/

/-- ASCII whitespace, as in Python's `str.strip()` and the regex class
`\s` (space, tab, newline, carriage return, vertical tab, form feed). -/
def isPySpace (c : Char) : Bool :=
  c == ' ' || c == '\t' || c == '\n' || c == '\r' || c == '\x0b' || c == '\x0c'

/-- Python `str.strip()`: drop whitespace from both ends. -/
def pyStrip (s : String) : String :=
  ⟨((s.data.dropWhile isPySpace).reverse.dropWhile isPySpace).reverse⟩

/-- Numeric value of a list of decimal digits. -/
def digitsVal (l : List Char) : Nat :=
  l.foldl (fun a c => a * 10 + (c.toNat - 48)) 0

/-- Python `int(s)` (lines 138-141): surrounding whitespace ignored, an
optional sign followed by decimal digits; anything else raises
`ValueError`, modelled as `none`.  (Underscore digit separators are not
modelled.) -/
def pyInt (s : String) : Option Int :=
  let t := (pyStrip s).data
  let core : Option (Int × List Char) :=
    match t with
    | '-' :: rest => some (-1, rest)
    | '+' :: rest => some (1, rest)
    | l => some (1, l)
  match core with
  | some (sign, digits) =>
    if digits ≠ [] ∧ digits.all Char.isDigit then some (sign * (digitsVal digits : Int))
    else none
  | none => none

/-- Does the list start with the given pattern? -/
def startsWithList : List Char → List Char → Bool
  | _, [] => true
  | [], _ :: _ => false
  | c :: t, d :: u => c == d && startsWithList t u

/-- Does the list contain the (non-empty) pattern as a contiguous run? -/
def containsList : List Char → List Char → Bool
  | [], needle => needle.isEmpty
  | c :: t, needle => startsWithList (c :: t) needle || containsList t needle

/-- Python `needle in hay` on strings (`"" in s` is `True`). -/
def strContains (hay needle : String) : Bool :=
  needle == "" || containsList hay.data needle.data

/-- The suffix of `hay` after the first occurrence of `needle`, if any. -/
def afterFirst : List Char → List Char → Option (List Char)
  | [], _ => none
  | c :: t, needle =>
    if startsWithList (c :: t) needle then some ((c :: t).drop needle.length)
    else afterFirst t needle

/-- A character that may appear in a URL's netloc (the host part stops at
`/`, `?` or `#`). -/
def netlocChar (c : Char) : Bool := !(c == '/' || c == '?' || c == '#')

/-- `urlparse(url).netloc`, modelled for the URL shapes in play: a netloc
is present exactly when the URL contains `://` (absolute URL) or starts
with `//` (protocol-relative); scheme-less relative references have an
empty netloc.  (Exotic `scheme:path` forms are not modelled.) -/
def urlNetloc (url : String) : String :=
  match afterFirst url.data "://".data with
  | some rest => ⟨rest.takeWhile netlocChar⟩
  | none =>
    if startsWithList url.data "//".data then ⟨(url.data.drop 2).takeWhile netlocChar⟩
    else ""

/-- `urlparse(url).path`, under the same modelling scope as `urlNetloc`:
what follows the netloc (or the whole reference when there is none), up to
the query/fragment delimiters. -/
def urlPath (url : String) : String :=
  let rest : List Char :=
    match afterFirst url.data "://".data with
    | some r => r.dropWhile netlocChar
    | none =>
      if startsWithList url.data "//".data then (url.data.drop 2).dropWhile netlocChar
      else url.data
  ⟨rest.takeWhile (fun c => !(c == '?' || c == '#'))⟩

/-- Hexadecimal value of a character, if any. -/
def hexVal (c : Char) : Option Nat :=
  if '0' ≤ c ∧ c ≤ '9' then some (c.toNat - 48)
  else if 'a' ≤ c ∧ c ≤ 'f' then some (c.toNat - 87)
  else if 'A' ≤ c ∧ c ≤ 'F' then some (c.toNat - 55)
  else none

/-- `urllib.parse.unquote`, per character: each `%XY` hex escape decodes to
the character with that code, anything else passes through.  (Multi-byte
UTF-8 escape sequences are not modelled; the titles in play are ASCII.) -/
def unquoteChars : List Char → List Char
  | [] => []
  | '%' :: a :: b :: rest =>
    match hexVal a, hexVal b with
    | some x, some y => Char.ofNat (16 * x + y) :: unquoteChars rest
    | _, _ => '%' :: unquoteChars (a :: b :: rest)
  | c :: rest => c :: unquoteChars rest

/-- `unquote(title)` (line 177). -/
def pyUnquote (s : String) : String := ⟨unquoteChars s.data⟩

/-! ### `shorten_extract` (lines 168-171) -/

/-- A sentence-ending character of the regex `(?<=[.!?])`. -/
def sentEnd (c : Char) : Bool := c == '.' || c == '!' || c == '?'

/-- `re.split(r'(?<=[.!?])\s+', text)` on the character list: scan left to
right; a maximal whitespace run immediately following `.`, `!` or `?`
separates two pieces and is consumed.  The Bool records whether the scan
is inside such a separator run; `acc` holds the current piece, reversed
(it is empty whenever the flag is set). -/
def splitSent : Bool → List Char → List Char → List (List Char)
  | _, acc, [] => [acc.reverse]
  | true, acc, c :: rest =>
    if isPySpace c then splitSent true acc rest
    else splitSent false (c :: acc) rest
  | false, acc, c :: rest =>
    if (match acc with | p :: _ => sentEnd p && isPySpace c | [] => false) then
      acc.reverse :: splitSent true [] rest
    else
      splitSent false (c :: acc) rest

/-- Python `" ".join(pieces)`. -/
def joinSp : List (List Char) → List Char
  | [] => []
  | [s] => s
  | s :: rest => s ++ ' ' :: joinSp rest

/-- `shorten_extract` (lines 168-171): keep only the first
`max_sentences` pieces of the regex split, joined by single spaces. -/
def shorten_extract (text : String) (max_sentences : Nat) : String :=
  ⟨joinSp ((splitSent false [] text.data).take max_sentences)⟩

/-! ### `osm_search` (lines 90-132) -/

/-- Outcome of the Nominatim request: a transport/HTTP/JSON-decoding
failure (any exception raised by lines 107-109), or a parsed JSON body. -/
inductive OsmOutcome where
  | fail (e : PyExc)
  | ok (data : J)

/-- Line 117-121: the category allow-list. -/
def allowed_classes : List String :=
  ["place", "boundary", "building", "amenity", "tourism", "highway", "shop",
    "leisure", "natural", "historic"]

/-- `float(s)` on a string: optional sign, then digits with at most one
decimal point (`d+`, `d+.d*` or `.d+`), surrounding whitespace ignored.
(Exponents, `inf` and `nan` are not modelled; Nominatim sends plain JSON
numbers.) -/
def pyFloatOfString (s : String) : Option ℚ :=
  let t := (pyStrip s).data
  let signed : Int × List Char :=
    match t with
    | '-' :: rest => (-1, rest)
    | '+' :: rest => (1, rest)
    | l => (1, l)
  let ip := signed.2.takeWhile Char.isDigit
  let rest := signed.2.dropWhile Char.isDigit
  match rest with
  | [] => if ip = [] then none else some (mkRat (signed.1 * digitsVal ip) 1)
  | '.' :: fp =>
    if fp.all Char.isDigit ∧ (ip ≠ [] ∨ fp ≠ []) then
      some (mkRat (signed.1 * (digitsVal ip * 10 ^ fp.length + digitsVal fp)) (10 ^ fp.length))
    else none
  | _ => none

/-- Python `float(x)` on a JSON value: numbers pass through, strings are
parsed, anything else raises `TypeError` (modelled as `none`, since inside
`osm_search` every raise is swallowed). -/
def pyFloat : J → Option ℚ
  | .num q => some q
  | .str s => pyFloatOfString s
  | _ => none

/-- `osm_search` (lines 90-132): return the provider's first candidate iff
its `class` is allow-listed and its `importance` (default 0) parses and is
`≥ 0.3`; every raised exception (transport, JSON decoding, subscripting a
non-array body, `.get` on a non-dict candidate, `float` on a non-numeric
importance) is swallowed by the `except` of line 131 and yields `None`. -/
def osm_search (out : OsmOutcome) : Option J :=
  match out with
  | .fail _ => none
  | .ok data =>
    if ¬ jTruthy data then none
    else
      match data with
      | .arr (result :: _) =>
        match result with
        | .obj l =>
          let cls := (jLookup l "class").getD .null
          let clsOK : Bool := match cls with | .str s => allowed_classes.contains s | _ => false
          if ¬ clsOK then none
          else
            match pyFloat ((jLookup l "importance").getD (.num 0)) with
            | none => none
            | some imp => if imp < mkRat 3 10 then none else some result
        | _ => none
      | _ => none

/-! ### The `home` route (lines 134-245) -/

/-- One entry of `results` (lines 160-166).  `link` is a `String` because
building the item applied `urlparse` to it (which would have raised on a
non-string); the other provider fields stay arbitrary JSON. -/
structure ResultItem where
  title : J
  link : String
  displayLink : J
  snippet : J
  favicon : String

/-- `wiki_box` (lines 189-194). -/
structure WikiBox where
  title : J
  extract : String
  thumbnail : J
  link : String

/-- The reduced address inside `osm_box` (lines 210-215). -/
structure OsmAddress where
  road : J
  postcode : J
  city : J
  country : J

/-- `osm_box` (lines 205-217). -/
structure OsmBox where
  display_name : J
  lat : J
  lon : J
  osmType : J
  address : OsmAddress
  opening_hours : J

/-- The local variables of `home` that the `try` block mutates
(lines 143-149); on an exception the handler renders their current
values. -/
structure TryVars where
  results : List ResultItem
  info : Option J
  wiki_box : Option WikiBox
  osm_box : Option OsmBox
  prev_start : Option J
  next_start : Option J

def initVars : TryVars :=
  { results := [], info := none, wiki_box := none, osm_box := none,
    prev_start := none, next_start := none }

/-- The environment of one `home` request: configuration, the outcome each
outbound call would produce, and the wall clock. -/
structure HomeEnv where
  cfgOK : Bool
  google : NetOutcome
  wiki : Except PyExc J
  osm : OsmOutcome
  now : Int
  today : String

/-- The rendering context passed to `render_template` (lines 233-245). -/
structure HomeResponse where
  q : String
  results : List ResultItem
  info : Option J
  error : Option String
  prev_start : Option J
  next_start : Option J
  wiki_box : Option WikiBox
  osm_box : Option OsmBox
  count : Int

/-- Result of one `home` request: the rendered context or an uncaught
exception (a 500), the final process state, plus observations of the
outbound calls: the issued search request and the encyclopedia
language/URL, when that fetch was attempted. -/
structure HomeOut where
  result : Except PyExc HomeResponse
  st : SearchState
  request : Option GRequest
  wikiLang : Option String
  wikiUrl : Option String

/-- Lines 156-166: build one entry of `results` from a provider item.
`it.get` raises `AttributeError` on a non-dict item; `urlparse` raises
`TypeError` on a non-string link. -/
def buildItem (it : J) : Except PyExc ResultItem :=
  match it with
  | .obj l =>
    let linkJ := (jLookup l "link").getD (.str "#")
    match linkJ with
    | .str link =>
      let domain := urlNetloc link
      .ok { title := (jLookup l "title").getD (.str "(sans titre)"),
            link := link,
            displayLink := (jLookup l "displayLink").getD (.str ""),
            snippet := (jLookup l "snippet").getD (.str ""),
            favicon := "https://www.google.com/s2/favicons?sz=32&domain=" ++ domain }
    | _ => .error (.other "urlparse expects a string")
  | _ => .error (.other attrGetMsg)

/-- The `for it in items` loop (lines 156-166): on an exception the entries
appended so far are kept. -/
def buildResults : List J → List ResultItem → Except (PyExc × List ResultItem) (List ResultItem)
  | [], acc => .ok acc.reverse
  | it :: rest, acc =>
    match buildItem it with
    | .ok r => buildResults rest (r :: acc)
    | .error e => .error (e, acc.reverse)

/-- `path.split("/")[-1]` (line 176): the part after the last slash (the
whole string when it has no slash). -/
def lastSlashComponent (s : String) : String :=
  ⟨(s.data.reverse.takeWhile (fun c => !(c == '/'))).reverse⟩

/-- `domain.split(".")[0]` (line 181): the part before the first dot (the
whole string when it has no dot). -/
def firstDotComponent (s : String) : String :=
  ⟨s.data.takeWhile (fun c => !(c == '.'))⟩

/-- Lines 180-181: the encyclopedia language derived from the top link —
`domain.split(".")[0] if domain else "en"` with `domain = urlparse(link).netloc`. -/
def codeLang (link : String) : String :=
  if urlNetloc link ≠ "" then firstDotComponent (urlNetloc link) else "en"

/-- Line 183 (with lines 175-177): the summary endpoint URL built from the
derived language and the percent-decoded last path component. -/
def codeWikiApi (link : String) : String :=
  "https://" ++ codeLang link ++ ".wikipedia.org/api/rest_v1/page/summary/"
    ++ pyUnquote (lastSlashComponent (urlPath link))

/-- Outcome of the encyclopedia step (lines 173-194). -/
structure WikiStepOut where
  exc : Option PyExc
  box : Option WikiBox
  lang : Option String
  url : Option String

/-- Lines 173-194: when the top result's link contains `wikipedia.org`,
derive title and language from the URL, fetch the summary, and build
`wiki_box`.  Any exception (the fetch itself, `.get` on a non-dict body or
thumbnail, `re.split` on a non-string extract) propagates to the outer
handlers. -/
def wikiStep (wiki : Except PyExc J) (results : List ResultItem) : WikiStepOut :=
  match results with
  | [] => { exc := none, box := none, lang := none, url := none }
  | top :: _ =>
    if strContains top.link "wikipedia.org" then
      let lang := codeLang top.link
      let wiki_api := codeWikiApi top.link
      match wiki with
      | .error e => { exc := some e, box := none, lang := some lang, url := some wiki_api }
      | .ok w =>
        match w with
        | .obj wl =>
          let raw_extract := (jLookup wl "extract").getD top.snippet
          match raw_extract with
          | .str ext =>
            let short_extract := shorten_extract ext 3
            match (jLookup wl "thumbnail").getD (.obj []) with
            | .obj tl =>
              { exc := none,
                box := some { title := (jLookup wl "title").getD top.title,
                              extract := short_extract,
                              thumbnail := (jLookup tl "source").getD .null,
                              link := top.link },
                lang := some lang, url := some wiki_api }
            | _ =>
              { exc := some (.other attrGetMsg), box := none,
                lang := some lang, url := some wiki_api }
          | _ =>
            { exc := some (.other "re split expects a string"), box := none,
              lang := some lang, url := some wiki_api }
        | _ =>
          { exc := some (.other attrGetMsg), box := none,
            lang := some lang, url := some wiki_api }
    else { exc := none, box := none, lang := none, url := none }

/-- Lines 196-217: the place box.  `osm_search` itself never raises (its
body is wrapped in `try`), but building `osm_box` can: `.get` on a truthy
non-dict `address`/`extratags` raises `AttributeError`, caught only by the
outer handlers. -/
def osmStep (out : OsmOutcome) : Except PyExc (Option OsmBox) :=
  match osm_search out with
  | none => .ok none
  | some place =>
    if ¬ jTruthy place then .ok none
    else
      match place with
      | .obj pl =>
        let addrJ := pyOr ((jLookup pl "address").getD (.obj [])) (.obj [])
        let extraJ := pyOr ((jLookup pl "extratags").getD (.obj [])) (.obj [])
        match addrJ with
        | .obj al =>
          match extraJ with
          | .obj el =>
            .ok (some
              { display_name := (jLookup pl "display_name").getD .null,
                lat := (jLookup pl "lat").getD .null,
                lon := (jLookup pl "lon").getD .null,
                osmType := (jLookup pl "type").getD .null,
                address :=
                  { road := (jLookup al "road").getD .null,
                    postcode := (jLookup al "postcode").getD .null,
                    city := pyOr ((jLookup al "city").getD .null)
                      (pyOr ((jLookup al "town").getD .null) ((jLookup al "village").getD .null)),
                    country := (jLookup al "country").getD .null },
                opening_hours := (jLookup el "opening_hours").getD .null })
          | _ => .error (.other attrGetMsg)
        | _ => .error (.other attrGetMsg)
      | _ => .error (.other attrGetMsg)

/-- `next_list[0].get("startIndex")` guarded by `if next_list:`
(lines 223-226): skip when falsy; index a non-list raises. -/
def cursorOf (lst : J) : Except PyExc (Option J) :=
  if ¬ jTruthy lst then .ok none
  else
    match lst with
    | .arr (h :: _) =>
      match h with
      | .obj hl => .ok (some ((jLookup hl "startIndex").getD .null))
      | _ => .error (.other attrGetMsg)
    | _ => .error (.other "not subscriptable")

/-- Outcome of the pagination step (lines 219-226); on an exception the
cursors assigned before it are kept. -/
structure QOut where
  exc : Option PyExc
  prev_start : Option J
  next_start : Option J

/-- Lines 219-226: extract the pagination cursors from
`data.get("queries", {})`; skipped entirely when that value is not a dict. -/
def queriesStep (dl : List (String × J)) : QOut :=
  let queries := (jLookup dl "queries").getD (.obj [])
  match queries with
  | .obj ql =>
    let next_list := pyOr ((jLookup ql "nextPage").getD .null) (.arr [])
    let prev_list := pyOr ((jLookup ql "previousPage").getD .null) (.arr [])
    match cursorOf next_list with
    | .error e => { exc := some e, prev_start := none, next_start := none }
    | .ok next_start =>
      match cursorOf prev_list with
      | .error e => { exc := some e, prev_start := none, next_start := next_start }
      | .ok prev_start => { exc := none, prev_start := prev_start, next_start := next_start }
  | _ => { exc := none, prev_start := none, next_start := none }

/-- Result of the `try` body after the search call succeeded. -/
structure TryOut where
  exc : Option PyExc
  vars : TryVars
  wikiLang : Option String
  wikiUrl : Option String

/-- Lines 154-226 of the `try` block, given the parsed search payload
`data`.  Each exception escapes with the variables mutated so far. -/
def tryRest (wiki : Except PyExc J) (osm : OsmOutcome) (data : J) : TryOut :=
  match data with
  | .obj dl =>
    let info := pyOr ((jLookup dl "searchInformation").getD .null) (.obj [])
    let itemsJ := pyOr ((jLookup dl "items").getD .null) (.arr [])
    match itemsJ with
    | .arr items =>
      match buildResults items [] with
      | .error (e, built) =>
        { exc := some e, vars := { initVars with results := built, info := some info },
          wikiLang := none, wikiUrl := none }
      | .ok results =>
        let ws := wikiStep wiki results
        match ws.exc with
        | some e =>
          { exc := some e,
            vars := { initVars with results := results, info := some info },
            wikiLang := ws.lang, wikiUrl := ws.url }
        | none =>
          match osmStep osm with
          | .error e =>
            { exc := some e,
              vars :=
                { initVars with
                  results := results
                  info := some info
                  wiki_box := ws.box },
              wikiLang := ws.lang, wikiUrl := ws.url }
          | .ok osm_box =>
            let qs := queriesStep dl
            { exc := qs.exc,
              vars := { results := results, info := some info, wiki_box := ws.box,
                        osm_box := osm_box, prev_start := qs.prev_start,
                        next_start := qs.next_start },
              wikiLang := ws.lang, wikiUrl := ws.url }
    | _ =>
      -- a truthy non-array `items` fails during iteration (`.get` on its
      -- elements or non-iterability), with no entry yet appended
      { exc := some (.other "items is not iterable"),
        vars := { initVars with info := some info }, wikiLang := none, wikiUrl := none }
  | _ =>
    { exc := some (.other attrGetMsg), vars := initVars, wikiLang := none, wikiUrl := none }

/-- Lines 228-231: the two `except` clauses.  The `HTTPError` handler's
message expression itself raises `TypeError` (string + int), which no
handler of the same `try` catches. -/
def handleExc (e : PyExc) : Except PyExc (Option String) :=
  match e with
  | .httpError code body =>
    match httpErrorMessage code body with
    | .ok m => .ok (some m)
    | .error te => .error te
  | .other m => .ok (some m)

/-- `home` (lines 134-245). -/
def home (env : HomeEnv) (st : SearchState) (qArg startArg : String) : HomeOut :=
  let q := pyStrip qArg
  let start_index := (pyInt startArg).getD 1
  if q = "" then
    { result := .ok { q := q, results := [], info := none, error := none,
                      prev_start := none, next_start := none, wiki_box := none,
                      osm_box := none, count := st.counter.count },
      st := st, request := none, wikiLang := none, wikiUrl := none }
  else
    let g := google_search env.cfgOK env.google env.now env.today st q start_index 10 none
    let t : TryOut :=
      match g.ret with
      | .error e => { exc := some e, vars := initVars, wikiLang := none, wikiUrl := none }
      | .ok data => tryRest env.wiki env.osm data
    match t.exc with
    | none =>
      { result := .ok { q := q, results := t.vars.results, info := t.vars.info,
                        error := none, prev_start := t.vars.prev_start,
                        next_start := t.vars.next_start, wiki_box := t.vars.wiki_box,
                        osm_box := t.vars.osm_box, count := g.st.counter.count },
        st := g.st, request := g.request, wikiLang := t.wikiLang, wikiUrl := t.wikiUrl }
    | some e =>
      match handleExc e with
      | .ok err =>
        { result := .ok { q := q, results := t.vars.results, info := t.vars.info,
                          error := err, prev_start := t.vars.prev_start,
                          next_start := t.vars.next_start, wiki_box := t.vars.wiki_box,
                          osm_box := t.vars.osm_box, count := g.st.counter.count },
          st := g.st, request := g.request, wikiLang := t.wikiLang, wikiUrl := t.wikiUrl }
      | .error te =>
        { result := .error te, st := g.st, request := g.request,
          wikiLang := t.wikiLang, wikiUrl := t.wikiUrl }

/-! ### The `images` route (lines 248-296) -/

/-- One entry of the image results (lines 267-271). -/
structure ImageItem where
  link : J
  thumbnail : J
  context : J

/-- Lines 266-271: build one image entry; `.get` raises on non-dict
values. -/
def buildImageItem (it : J) : Except PyExc ImageItem :=
  match it with
  | .obj l =>
    let imageJ := (jLookup l "image").getD (.obj [])
    match imageJ with
    | .obj il =>
      .ok { link := (jLookup l "link").getD (.str "#"),
            thumbnail := (jLookup il "thumbnailLink").getD ((jLookup l "link").getD (.str "")),
            context := (jLookup il "contextLink").getD ((jLookup l "link").getD (.str "")) }
    | _ => .error (.other attrGetMsg)
  | _ => .error (.other attrGetMsg)

/-- The `for it in items` loop of `images`. -/
def buildImageResults :
    List J → List ImageItem → Except (PyExc × List ImageItem) (List ImageItem)
  | [], acc => .ok acc.reverse
  | it :: rest, acc =>
    match buildImageItem it with
    | .ok r => buildImageResults rest (r :: acc)
    | .error e => .error (e, acc.reverse)

/-- The rendering context of `images.html` (lines 287-296). -/
structure ImagesResponse where
  q : String
  results : List ImageItem
  error : Option String
  prev_start : Option J
  next_start : Option J
  count : Int

/-- Result of one `images` request. -/
structure ImagesOut where
  result : Except PyExc ImagesResponse
  st : SearchState
  request : Option GRequest

/-- The `try` body of `images` after the search call succeeded
(lines 265-280). -/
def imagesTry (data : J) : Option PyExc × List ImageItem × Option J × Option J :=
  match data with
  | .obj dl =>
    let itemsJ := pyOr ((jLookup dl "items").getD .null) (.arr [])
    match itemsJ with
    | .arr items =>
      match buildImageResults items [] with
      | .error (e, built) => (some e, built, none, none)
      | .ok results =>
        let qs := queriesStep dl
        (qs.exc, results, qs.prev_start, qs.next_start)
    | _ => (some (.other "items is not iterable"), [], none, none)
  | _ => (some (.other attrGetMsg), [], none, none)

/-- `images` (lines 248-296): same search client with
`search_type="image"`, the same pagination extraction and the same
handlers; no encyclopedia or place boxes. -/
def images (cfgOK : Bool) (net : NetOutcome) (now : Int) (today : String)
    (st : SearchState) (qArg startArg : String) : ImagesOut :=
  let q := pyStrip qArg
  let start_index := (pyInt startArg).getD 1
  if q = "" then
    { result := .ok { q := q, results := [], error := none, prev_start := none,
                      next_start := none, count := st.counter.count },
      st := st, request := none }
  else
    let g := google_search cfgOK net now today st q start_index 10 (some "image")
    let t : Option PyExc × List ImageItem × Option J × Option J :=
      match g.ret with
      | .error e => (some e, [], none, none)
      | .ok data => imagesTry data
    match t.1 with
    | none =>
      { result := .ok { q := q, results := t.2.1, error := none, prev_start := t.2.2.1,
                        next_start := t.2.2.2, count := g.st.counter.count },
        st := g.st, request := g.request }
    | some e =>
      match handleExc e with
      | .ok err =>
        { result := .ok { q := q, results := t.2.1, error := err, prev_start := t.2.2.1,
                          next_start := t.2.2.2, count := g.st.counter.count },
          st := g.st, request := g.request }
      | .error te => { result := .error te, st := g.st, request := g.request }

/-! ### Auxiliary definitions for the verification -/

/-- A pair of adjacent characters that does *not* start a sentence
boundary (no terminator followed by whitespace). -/
def okPair (p c : Char) : Bool := !(sentEnd p && isPySpace c)

/-- No sentence boundary occurs inside the list. -/
def okRun : List Char → Bool
  | [] => true
  | [_] => true
  | p :: c :: t => okPair p c && okRun (c :: t)

/-- Boundary check between the current accumulator and the next input. -/
def headOK : List Char → List Char → Bool
  | p :: _, c :: _ => okPair p c
  | _, _ => true

/-- A well-formed sentence: non-empty, not starting with whitespace,
ending in `.`, `!` or `?`, and containing no internal sentence boundary. -/
def goodSentence (s : List Char) : Prop :=
  s ≠ [] ∧ isPySpace (s.headD ' ') = false ∧ sentEnd (s.getLastD ' ') = true ∧ okRun s = true

instance (s : List Char) : Decidable (goodSentence s) := by
  unfold goodSentence; infer_instance

/-- A provider item carrying string `title`/`link`/`displayLink`/`snippet`
fields, as a JSON object. -/
def mkItemJ (t : String × String × String × String) : J :=
  .obj [("title", .str t.1), ("link", .str t.2.1), ("displayLink", .str t.2.2.1),
    ("snippet", .str t.2.2.2)]

/-- The `results` entry `home` builds from such an item. -/
def mkResultItem (t : String × String × String × String) : ResultItem :=
  { title := .str t.1, link := t.2.1, displayLink := .str t.2.2.1, snippet := .str t.2.2.2,
    favicon := "https://www.google.com/s2/favicons?sz=32&domain=" ++ urlNetloc t.2.1 }

/-- Modelled from the spec's words for claim C9: the encyclopedia language
is "derived from the URL's subdomain (the first dot-separated component of
the host), defaulting to en whenever the language cannot be determined
from the URL" (no host present). -/
def specLang (url : String) : String :=
  if urlNetloc url = "" then "en" else firstDotComponent (urlNetloc url)

/-- A search payload with the three fields the composer reads. -/
def mkSearchData (info : J) (items : List J) (qrs : J) : J :=
  .obj [("searchInformation", info), ("items", .arr items), ("queries", qrs)]

/-- An empty process state (fresh cache, counter at zero). -/
def stEmpty : SearchState :=
  { cache := [], counter := { date := "2026-10-12", count := 0 } }

/-- A state whose cache holds a *fresh but empty* payload for the key of
query `"q"`, page size 10, start 1, web kind (timestamp 0). -/
def stFalsyHit : SearchState :=
  { cache := [(("q|10", 1, "web"), (0, J.obj []))],
    counter := { date := "2026-10-12", count := 5 } }

/-- Environment for the HTTP-403 scenario of claim C1. -/
def envHttp403 : HomeEnv :=
  { cfgOK := true
    google := .httpError 403 "Forbidden"
    wiki := .ok (.obj [])
    osm := .ok (.arr [])
    now := 0
    today := "2026-10-12" }

/-- A one-item search payload whose top link is a French encyclopedia
article, with a next-page cursor. -/
def dataParis : J :=
  .obj [("searchInformation", .obj [("totalResults", .str "1")]),
    ("items", .arr [mkItemJ ("Paris", "https://fr.wikipedia.org/wiki/Paris",
      "fr.wikipedia.org", "Capital of France.")]),
    ("queries", .obj [("nextPage", .arr [.obj [("startIndex", .num 11)]])])]

/-- Environment for the C2 counterexample: the search succeeds with
`dataParis`, the encyclopedia fetch raises an exception `"boom"`. -/
def envWikiBoom : HomeEnv :=
  { cfgOK := true
    google := .ok dataParis
    wiki := .error (.other "boom")
    osm := .ok (.arr [])
    now := 0
    today := "2026-10-12" }

/-- Environment whose top search hit is `wikipedia.org/wiki/X` — a link
containing `wikipedia.org` but carrying no host (a scheme-less
reference). -/
def envWikiNoHost : HomeEnv :=
  { cfgOK := true
    google := .ok (.obj [("searchInformation", .obj []),
      ("items", .arr [mkItemJ ("X", "wikipedia.org/wiki/X", "", "s")]),
      ("queries", .obj [])])
    wiki := .error (.other "boom")
    osm := .ok (.arr [])
    now := 0
    today := "2026-10-12" }

/-! ## Verification of the claims -/

theorem dictGet_dictPop (c : Cache) (k : CacheKey) : dictGet (dictPop c k) k = none := by
  induction c with
  | nil => rfl
  | cons e t ih =>
    by_cases h : e.1 = k
    · simpa [dictPop, h] using ih
    · simpa [dictPop, dictGet, h] using ih

theorem dictGet_dictSet_self (c : Cache) (k : CacheKey) (v : Int × J) :
    dictGet (dictSet c k v) k = some v := by
  simp [dictSet, dictGet]

/-- **C4**: a `set` followed immediately by a `get` on the same key returns
the stored payload (and mutates nothing), and a `get` on an entry strictly
older than the 60-second TTL returns absent and removes the entry from the
store. -/
theorem c4_cache_set_get_and_ttl_expiry :
    (∀ (c : Cache) (key : CacheKey) (v : J) (now : Int),
      _cache_get now (_cache_set now c key v) key = (some v, _cache_set now c key v))
    ∧ (∀ (c : Cache) (key : CacheKey) (ts : Int) (p : J) (now : Int),
      dictGet c key = some (ts, p) → now - ts > CACHE_TTL_SEC →
      _cache_get now c key = (none, dictPop c key) ∧ dictGet (dictPop c key) key = none) := by
  constructor
  · intro c key v now
    simp [_cache_get, _cache_set, dictGet_dictSet_self, CACHE_TTL_SEC]
  · intro c key ts p now h1 h2
    refine ⟨?_, dictGet_dictPop c key⟩
    simp [_cache_get, h1, h2]

/-- Witness for C4 at a concrete expired entry. -/
theorem c4_witness :
    _cache_get 100 [(("q|10", 1, "web"), (0, J.null))] ("q|10", 1, "web")
        = (none, dictPop [(("q|10", 1, "web"), (0, J.null))] ("q|10", 1, "web"))
    ∧ dictGet (dictPop [(("q|10", 1, "web"), (0, J.null))] ("q|10", 1, "web")) ("q|10", 1, "web")
        = none :=
  c4_cache_set_get_and_ttl_expiry.2 [(("q|10", 1, "web"), (0, J.null))] ("q|10", 1, "web")
    0 J.null 100 rfl (by decide)

/-- **C5**: the daily-reset invariant of the request counter: recording on
a different date resets to zero for the new date before incrementing (so
the result is count 1), recording on the stored date increments, two
recordings on one date from zero give 2; and the counter is mutated only
by successful upstream calls — an HTTP failure leaves it unchanged, and a
successful network call (cache miss) records exactly one call. -/
theorem c5_counter_daily_reset :
    (∀ (c : Counter) (today : String), c.date ≠ today →
      recordCall c today = { date := today, count := 1 })
    ∧ (∀ (c : Counter) (today : String), c.date = today →
      recordCall c today = { date := today, count := c.count + 1 })
    ∧ (∀ (c : Counter) (d : String), c.count = 0 →
      (recordCall (recordCall c d) d).count = 2)
    ∧ (∀ (code : Int) (body : String) (now : Int) (today : String) (st : SearchState)
        (q : String) (si n : Int) (k : Option String),
        (google_search true (.httpError code body) now today st q si n k).st.counter
          = st.counter)
    ∧ (∀ (d : J) (now : Int) (today : String) (st : SearchState) (q : String) (si n : Int)
        (k : Option String),
        dictGet st.cache (cacheKeyOf q n si k) = none →
        (google_search true (.ok d) now today st q si n k).st.counter
          = recordCall st.counter today) := by
  refine ⟨?_, ?_, ?_, ?_, ?_⟩
  · intro c today h
    simp [recordCall, h]
  · intro c today h
    simp [recordCall, h]
  · intro c d h
    by_cases hd : c.date = d <;> simp [recordCall, hd, h]
  · intro code body now today st q si n k
    unfold google_search googleNetwork
    rcases hg : (_cache_get now st.cache (cacheKeyOf q n si k)).1 with _ | p
    · simp [hg]
    · by_cases hp : jTruthy p = true <;> simp [hg, hp]
  · intro d now today st q si n k h
    unfold google_search googleNetwork
    have hg : _cache_get now st.cache (cacheKeyOf q n si k) = (none, st.cache) := by
      simp [_cache_get, h]
    simp [hg]

/-- Witness for C5 at concrete counters. -/
theorem c5_witness :
    recordCall { date := "2026-10-11", count := 7 } "2026-10-12"
        = { date := "2026-10-12", count := 1 }
    ∧ (recordCall (recordCall { date := "2026-10-12", count := 0 } "2026-10-12")
        "2026-10-12").count = 2 :=
  ⟨c5_counter_daily_reset.1 _ _ (by decide),
    c5_counter_daily_reset.2.2.1 { date := "2026-10-12", count := 0 } "2026-10-12" rfl⟩

theorem google_search_hit (net : NetOutcome) (now : Int) (today : String) (st : SearchState)
    (q : String) (si n : Int) (k : Option String) (ts : Int) (p : J)
    (h1 : dictGet st.cache (cacheKeyOf q n si k) = some (ts, p))
    (h2 : now - ts ≤ CACHE_TTL_SEC) (h3 : jTruthy p = true) :
    google_search true net now today st q si n k = { ret := .ok p, st := st, request := none } := by
  unfold google_search
  have hg : _cache_get now st.cache (cacheKeyOf q n si k) = (some p, st.cache) := by
    simp [_cache_get, h1]
    omega
  simp [hg, h3]

theorem google_search_miss_ok (d : J) (now : Int) (today : String) (st : SearchState)
    (q : String) (si n : Int) (k : Option String)
    (h : dictGet st.cache (cacheKeyOf q n si k) = none) :
    google_search true (.ok d) now today st q si n k
      = { ret := .ok d,
          st := { cache := _cache_set now st.cache (cacheKeyOf q n si k) d,
                  counter := recordCall st.counter today },
          request := some { q := q, num := clampNum n, start := clampStart si,
                            searchType := k } } := by
  unfold google_search googleNetwork
  have hg : _cache_get now st.cache (cacheKeyOf q n si k) = (none, st.cache) := by
    simp [_cache_get, h]
  simp [hg]

theorem google_search_request_shape (cfg : Bool) (net : NetOutcome) (now : Int)
    (today : String) (st : SearchState) (q : String) (si n : Int) (k : Option String) :
    (google_search cfg net now today st q si n k).request = none
    ∨ (google_search cfg net now today st q si n k).request
        = some { q := q, num := clampNum n, start := clampStart si, searchType := k } := by
  rcases cfg with _ | _
  · left; rfl
  · rcases hgc : (_cache_get now st.cache (cacheKeyOf q n si k)).1 with _ | p
    · unfold google_search googleNetwork
      rcases net with ⟨code, body⟩ | ⟨msg⟩ | ⟨dd⟩
      · right; simp [hgc]
      · right; simp [hgc]
      · right; simp [hgc]
    · by_cases hp : jTruthy p = true
      · left
        unfold google_search
        simp [hgc, hp]
      · unfold google_search googleNetwork
        rcases net with ⟨code, body⟩ | ⟨msg⟩ | ⟨dd⟩
        · right; simp [hgc, hp]
        · right; simp [hgc, hp]
        · right; simp [hgc, hp]

/-- **C6**: the start index used for the upstream call is clamped to
`[1, 91]` and the page size to `[1, 10]`; `start_index=0` becomes 1,
`start_index=999` becomes 91, `page_size=50` becomes 10; and every request
actually issued by `google_search` carries exactly the clamped values. -/
theorem c6_clamping :
    (∀ si n : Int, 1 ≤ clampStart si ∧ clampStart si ≤ 91 ∧ 1 ≤ clampNum n ∧ clampNum n ≤ 10)
    ∧ clampStart 0 = 1 ∧ clampStart 999 = 91 ∧ clampNum 50 = 10
    ∧ (∀ (cfg : Bool) (net : NetOutcome) (now : Int) (today : String) (st : SearchState)
        (q : String) (si n : Int) (k : Option String) (r : GRequest),
        (google_search cfg net now today st q si n k).request = some r →
        r.start = clampStart si ∧ r.num = clampNum n) := by
  refine ⟨?_, by decide, by decide, by decide, ?_⟩
  · intro si n
    unfold clampStart clampNum
    omega
  · intro cfg net now today st q si n k r h
    rcases google_search_request_shape cfg net now today st q si n k with hs | hs
    · rw [hs] at h; exact absurd h (by simp)
    · rw [hs] at h
      obtain rfl : r = _ := (Option.some.inj h).symm
      exact ⟨rfl, rfl⟩

/-- Witness for C6: a concrete issued request with out-of-range inputs. -/
theorem c6_witness :
    ({ q := "q", num := 10, start := 91, searchType := none } : GRequest).start = clampStart 999
    ∧ ({ q := "q", num := 10, start := 91, searchType := none } : GRequest).num = clampNum 50 :=
  c6_clamping.2.2.2.2 true (.ok J.null) 0 "2026-10-12" stEmpty "q" 999 50 none
    { q := "q", num := 10, start := 91, searchType := none } rfl

/-- **C10**: the cache key is built from the clamped parameters: inputs
that clamp equal share one key (`start 0` and `1`; `page_size 50` and
`10`), and after a successful call, a second call whose raw parameters
clamp to the same values hits the cached entry (no request issued) for any
truthy payload. -/
theorem c10_cache_key_uses_clamped_params :
    (∀ (q : String) (k : Option String) (si si' n n' : Int),
      clampStart si = clampStart si' → clampNum n = clampNum n' →
      cacheKeyOf q n si k = cacheKeyOf q n' si' k)
    ∧ cacheKeyOf "q" 10 0 none = cacheKeyOf "q" 10 1 none
    ∧ cacheKeyOf "q" 50 1 none = cacheKeyOf "q" 10 1 none
    ∧ (∀ (q : String) (si si' n n' : Int) (now : Int) (today : String) (st : SearchState)
        (d : J) (net2 : NetOutcome),
        clampStart si = clampStart si' → clampNum n = clampNum n' →
        dictGet st.cache (cacheKeyOf q n si none) = none → jTruthy d = true →
        (google_search true net2 now today
          (google_search true (.ok d) now today st q si n none).st q si' n' none).request
            = none
        ∧ (google_search true net2 now today
            (google_search true (.ok d) now today st q si n none).st q si' n' none).ret
              = .ok d) := by
  have hkey : ∀ (q : String) (k : Option String) (si si' n n' : Int),
      clampStart si = clampStart si' → clampNum n = clampNum n' →
      cacheKeyOf q n si k = cacheKeyOf q n' si' k := by
    intro q k si si' n n' h1 h2
    simp [cacheKeyOf, h1, h2]
  refine ⟨hkey, by decide, by decide, ?_⟩
  intro q si si' n n' now today st d net2 h1 h2 hmiss hd
  have hst : (google_search true (.ok d) now today st q si n none).st
      = { cache := _cache_set now st.cache (cacheKeyOf q n si none) d,
          counter := recordCall st.counter today } := by
    rw [google_search_miss_ok d now today st q si n none hmiss]
  have hhit := google_search_hit net2 now today
    { cache := _cache_set now st.cache (cacheKeyOf q n si none) d,
      counter := recordCall st.counter today } q si' n' none now d
    (by rw [← hkey q none si si' n n' h1 h2]; exact dictGet_dictSet_self _ _ _)
    (by simp [CACHE_TTL_SEC]) hd
  rw [hst, hhit]
  exact ⟨rfl, rfl⟩

/-- Witness for C10: `start 0` and `start 1` share one entry. -/
theorem c10_witness :
    (google_search true (.transportError "down") 7 "2026-10-12"
      (google_search true (.ok (J.str "payload")) 7 "2026-10-12" stEmpty "q" 0 10 none).st
      "q" 1 10 none).request = none
    ∧ (google_search true (.transportError "down") 7 "2026-10-12"
        (google_search true (.ok (J.str "payload")) 7 "2026-10-12" stEmpty "q" 0 10 none).st
        "q" 1 10 none).ret = .ok (J.str "payload") :=
  c10_cache_key_uses_clamped_params.2.2.2 "q" 0 1 10 10 7 "2026-10-12" stEmpty
    (J.str "payload") (.transportError "down") (by decide) (by decide) rfl (by decide)

/-- **C3, counterexample**: a present and *fresh* cache entry whose payload
is the empty JSON object is not returned: the code's `if cached:` treats
the falsy payload as a miss, so a network request is issued, the counter
is incremented, and the network payload (not the cached one) is returned —
contradicting the claim for this input. -/
theorem c3_counterexample :
    dictGet stFalsyHit.cache (cacheKeyOf "q" 10 1 none) = some (0, J.obj [])
    ∧ (0 : Int) - 0 ≤ CACHE_TTL_SEC
    ∧ (google_search true (.ok (J.str "fresh")) 0 "2026-10-12" stFalsyHit
        "q" 1 10 none).request.isSome = true
    ∧ (google_search true (.ok (J.str "fresh")) 0 "2026-10-12" stFalsyHit
        "q" 1 10 none).st.counter.count = 6
    ∧ (google_search true (.ok (J.str "fresh")) 0 "2026-10-12" stFalsyHit
        "q" 1 10 none).ret = .ok (J.str "fresh") := by
  exact ⟨rfl, by decide, rfl, rfl, rfl⟩

/-- **C3, amended**: for a present, fresh *and truthy (non-empty)* cached
payload, `google_search` returns that payload, issues no network request
(it is independent of the network outcome), and leaves cache and counter
unchanged; an empty (falsy) payload behaves like a miss.  On a cache miss
whose network call succeeds, exactly one call is recorded (counter
incremented once, after a date reset if the date changed). -/
theorem c3_cache_hit_and_counter :
    (∀ (net : NetOutcome) (now : Int) (today : String) (st : SearchState) (q : String)
      (si n : Int) (k : Option String) (ts : Int) (p : J),
      dictGet st.cache (cacheKeyOf q n si k) = some (ts, p) → now - ts ≤ CACHE_TTL_SEC →
      jTruthy p = true →
      google_search true net now today st q si n k = { ret := .ok p, st := st, request := none })
    ∧ (∀ (d : J) (now : Int) (today : String) (st : SearchState) (q : String) (si n : Int)
      (k : Option String),
      dictGet st.cache (cacheKeyOf q n si k) = none →
      (google_search true (.ok d) now today st q si n k).request.isSome = true
      ∧ (google_search true (.ok d) now today st q si n k).st.counter
          = recordCall st.counter today
      ∧ (google_search true (.ok d) now today st q si n k).st.counter.count
          = (if st.counter.date = today then st.counter.count else 0) + 1
      ∧ (google_search true (.ok d) now today st q si n k).ret = .ok d) := by
  constructor
  · exact google_search_hit
  · intro d now today st q si n k h
    rw [google_search_miss_ok d now today st q si n k h]
    refine ⟨rfl, rfl, ?_, rfl⟩
    by_cases hd : st.counter.date = today <;> simp [recordCall, hd]

/-- Witness for C3 (amended) at a concrete fresh truthy entry and a
concrete miss. -/
theorem c3_witness :
    google_search true (.transportError "down") 30 "2026-10-12"
      { cache := [(("q|10", 1, "web"), (0, J.str "pay"))],
        counter := { date := "2026-10-12", count := 5 } } "q" 1 10 none
      = { ret := .ok (J.str "pay"),
          st := { cache := [(("q|10", 1, "web"), (0, J.str "pay"))],
                  counter := { date := "2026-10-12", count := 5 } },
          request := none }
    ∧ (google_search true (.ok (J.str "pay")) 0 "2026-10-12" stEmpty "q" 1 10 none).st.counter
        = recordCall stEmpty.counter "2026-10-12" :=
  ⟨c3_cache_hit_and_counter.1 (.transportError "down") 30 "2026-10-12"
      { cache := [(("q|10", 1, "web"), (0, J.str "pay"))],
        counter := { date := "2026-10-12", count := 5 } } "q" 1 10 none 0 (J.str "pay")
      rfl (by decide) (by decide),
    (c3_cache_hit_and_counter.2 (J.str "pay") 0 "2026-10-12" stEmpty "q" 1 10 none rfl).2.1⟩

/-- **C7**: Place Lookup returns the provider's first candidate exactly
when its category is a string in the allow-list and its importance value
(default 0) parses to a rational `≥ 0.3`; in every other case — transport
failure, empty or non-array body, non-dict candidate, unlisted or missing
category, unparseable importance, low importance — it returns absent (by
construction it never raises: every exception is swallowed into `none`). -/
theorem c7_place_filter (out : OsmOutcome) (r : J) :
    osm_search out = some r ↔
      ∃ (rest : List J) (l : List (String × J)) (s : String) (imp : ℚ),
        out = .ok (.arr (r :: rest)) ∧ r = .obj l ∧
        (jLookup l "class").getD .null = .str s ∧ s ∈ allowed_classes ∧
        pyFloat ((jLookup l "importance").getD (.num 0)) = some imp ∧ mkRat 3 10 ≤ imp := by
  constructor
  · intro h
    rcases out with e | data
    · simp [osm_search] at h
    · rcases data with _ | q | s0 | lst | o <;> simp [osm_search] at h
      rcases lst with _ | ⟨res, rest⟩
      · simp at h
      · simp [jTruthy] at h
        rcases res with _ | q' | s' | lst' | l <;> simp at h
        rcases hc : (jLookup l "class").getD .null with _ | cq | cs | cl | co <;>
          simp [hc] at h
        obtain ⟨hmem, hmatch⟩ := h
        rcases hf : pyFloat ((jLookup l "importance").getD (.num 0)) with _ | imp
        · rw [hf] at hmatch; simp at hmatch
        · rw [hf] at hmatch
          by_cases hlt : imp < mkRat 3 10
          · simp [hlt] at hmatch
          · simp [hlt] at hmatch
            obtain rfl : J.obj l = r := hmatch
            exact ⟨rest, l, cs, imp, rfl, rfl, hc, hmem, hf, not_lt.mp hlt⟩
  · rintro ⟨rest, l, s, imp, rfl, rfl, h3, h4, h5, h6⟩
    simp only [osm_search, jTruthy, List.isEmpty_cons, Bool.not_false, if_true, h3, h5]
    rw [if_neg (by simp [List.elem_iff.mpr h4])]
    simp [h4, h5, not_lt.mpr h6]

/-! Sentence-splitting lemmas for C8. -/

theorem splitSent_nil (b : Bool) (acc : List Char) : splitSent b acc [] = [acc.reverse] := by
  cases b <;> rfl

theorem splitSent_false_cons (acc : List Char) (c : Char) (rest : List Char) :
    splitSent false acc (c :: rest)
      = if (match acc with | p :: _ => sentEnd p && isPySpace c | [] => false) then
          acc.reverse :: splitSent true [] rest
        else splitSent false (c :: acc) rest := rfl

theorem splitSent_true_cons (acc : List Char) (c : Char) (rest : List Char) :
    splitSent true acc (c :: rest)
      = if isPySpace c then splitSent true acc rest
        else splitSent false (c :: acc) rest := rfl

theorem headD_reverse (l : List Char) (d : Char) : l.reverse.headD d = l.getLastD d := by
  rcases h : l.reverse with _ | ⟨c, t⟩
  · have : l = [] := by simpa using congrArg List.reverse h
    subst this; rfl
  · have h2 : l.getLast? = some c := by
      rw [← List.head?_reverse, h]; rfl
    rw [List.getLastD_eq_getLast?, h2]
    rfl

theorem okRun_tail (c : Char) (s : List Char) (h : okRun (c :: s) = true) :
    okRun s = true := by
  rcases s with _ | ⟨d, t⟩
  · rfl
  · exact (Bool.and_eq_true_iff.mp h).2

theorem okRun_headOK (c : Char) (s acc : List Char) (h : okRun (c :: s) = true) :
    headOK (c :: acc) s = true := by
  rcases s with _ | ⟨d, t⟩
  · rfl
  · exact (Bool.and_eq_true_iff.mp h).1

/-- Scanning a boundary-free block `s` just accumulates it. -/
theorem splitSent_walk (s : List Char) : ∀ (acc t : List Char),
    okRun s = true → headOK acc s = true →
    splitSent false acc (s ++ t) = splitSent false (s.reverse ++ acc) t := by
  induction s with
  | nil => intro acc t _ _; simp
  | cons c s' ih =>
    intro acc t hrun hhead
    have hstep : splitSent false acc (c :: (s' ++ t)) = splitSent false (c :: acc) (s' ++ t) := by
      rw [splitSent_false_cons]
      rcases acc with _ | ⟨p, acc'⟩
      · simp
      · have hok : okPair p c = true := hhead
        unfold okPair at hok
        cases hb : (sentEnd p && isPySpace c)
        · simp [hb]
        · rw [hb] at hok
          simp at hok
    rw [List.cons_append, hstep, ih (c :: acc) t (okRun_tail c s' hrun) (okRun_headOK c s' acc hrun)]
    simp

/-- A whitespace character after a terminator closes the current piece. -/
theorem splitSent_junction (p : Char) (acc t : List Char) (hp : sentEnd p = true) :
    splitSent false (p :: acc) (' ' :: t) = (p :: acc).reverse :: splitSent true [] t := by
  rw [splitSent_false_cons]
  simp [hp, isPySpace]

/-- Leaving a separator run at a non-space character (or the end). -/
theorem splitSent_exitRun (t : List Char)
    (ht : t = [] ∨ isPySpace (t.headD 'x') = false) :
    splitSent true [] t = splitSent false [] t := by
  rcases t with _ | ⟨c, rest⟩
  · rfl
  · rcases ht with h | h
    · cases h
    · simp only [List.headD_cons] at h
      rw [splitSent_true_cons, splitSent_false_cons]
      simp [h]

/-- The regex split is a left inverse of joining well-formed sentences with
single spaces. -/
theorem splitSent_joinSp : ∀ (l : List (List Char)) (s : List Char),
    goodSentence s → (∀ x ∈ l, goodSentence x) →
    splitSent false [] (joinSp (s :: l)) = s :: l := by
  intro l
  induction l with
  | nil =>
    intro s hs _
    have h1 : joinSp [s] = s ++ [] := by simp [joinSp]
    rw [h1, splitSent_walk s [] [] hs.2.2.2 (by cases s <;> rfl), splitSent_nil]
    simp
  | cons s₂ l' ih =>
    intro s hs hl
    have hs₂ : goodSentence s₂ := hl s₂ (by simp)
    have hl' : ∀ x ∈ l', goodSentence x := fun x hx => hl x (by simp [hx])
    have hj : joinSp (s :: s₂ :: l') = s ++ (' ' :: joinSp (s₂ :: l')) := rfl
    rw [hj, splitSent_walk s [] (' ' :: joinSp (s₂ :: l')) hs.2.2.2 (by cases s <;> rfl),
      List.append_nil]
    obtain ⟨p, acc', hrev⟩ : ∃ p acc', s.reverse = p :: acc' := by
      rcases hsne : s.reverse with _ | ⟨p, acc'⟩
      · exact absurd (by simpa using congrArg List.reverse hsne) hs.1
      · exact ⟨p, acc', rfl⟩
    have hp : sentEnd p = true := by
      have := headD_reverse s ' '
      rw [hrev] at this
      simp only [List.headD_cons] at this
      rw [this]
      exact hs.2.2.1
    have hhead : isPySpace ((joinSp (s₂ :: l')).headD 'x') = false := by
      obtain ⟨c, cs, hc⟩ : ∃ c cs, s₂ = c :: cs := by
        rcases s₂ with _ | ⟨c, cs⟩
        · exact absurd rfl hs₂.1
        · exact ⟨c, cs, rfl⟩
      have hns : isPySpace c = false := by
        have := hs₂.2.1
        rw [hc] at this
        simpa using this
      rcases l' with _ | ⟨x, xs⟩
      · simpa [joinSp, hc] using hns
      · simpa [joinSp, hc] using hns
    rw [hrev, splitSent_junction p acc' _ hp, ← hrev,
      splitSent_exitRun _ (Or.inr hhead), ih s₂ hs₂ hl']
    simp

/-- **C8**: `shorten_extract` keeps exactly the first 3 sentences: for any
five sentences (each ending in `.`, `!` or `?`, not starting with
whitespace, and containing no internal terminator-whitespace boundary)
joined by single spaces, the result is exactly the first three, with their
boundaries (terminator + separating space) preserved. -/
theorem c8_shorten_extract_first_three (s1 s2 s3 s4 s5 : List Char)
    (h1 : goodSentence s1) (h2 : goodSentence s2) (h3 : goodSentence s3)
    (h4 : goodSentence s4) (h5 : goodSentence s5) :
    shorten_extract ⟨joinSp [s1, s2, s3, s4, s5]⟩ 3 = ⟨joinSp [s1, s2, s3]⟩ := by
  unfold shorten_extract
  have hdata : (String.mk (joinSp [s1, s2, s3, s4, s5])).data = joinSp [s1, s2, s3, s4, s5] := rfl
  rw [hdata, splitSent_joinSp [s2, s3, s4, s5] s1 h1 (by
    intro x hx
    simp only [List.mem_cons, List.not_mem_nil, or_false] at hx
    rcases hx with rfl | rfl | rfl | rfl <;> assumption)]
  rfl

/-- Witness for C8 on a concrete 5-sentence extract. -/
theorem c8_witness :
    shorten_extract
        ⟨joinSp [['A', 'a', '.'], ['B', '!'], ['C', '?'], ['D', '.'], ['E', '.']]⟩ 3
      = ⟨joinSp [['A', 'a', '.'], ['B', '!'], ['C', '?']]⟩ :=
  c8_shorten_extract_first_three ['A', 'a', '.'] ['B', '!'] ['C', '?'] ['D', '.'] ['E', '.']
    (by decide) (by decide) (by decide) (by decide) (by decide)

/-! Composer lemmas for C1, C2 and C9. -/

theorem buildItem_mkItemJ (t : String × String × String × String) :
    buildItem (mkItemJ t) = .ok (mkResultItem t) := by
  obtain ⟨a, b, c, d⟩ := t
  rfl

theorem buildResults_cons (it : J) (rest : List J) (acc : List ResultItem) :
    buildResults (it :: rest) acc
      = match buildItem it with
        | .ok r => buildResults rest (r :: acc)
        | .error e => .error (e, acc.reverse) := rfl

theorem buildResults_map (l : List (String × String × String × String)) :
    ∀ acc : List ResultItem,
      buildResults (l.map mkItemJ) acc = .ok (acc.reverse ++ l.map mkResultItem) := by
  induction l with
  | nil => intro acc; simp [buildResults]
  | cons t l' ih =>
    intro acc
    rw [List.map_cons, buildResults_cons, buildItem_mkItemJ]
    show buildResults (l'.map mkItemJ) (mkResultItem t :: acc) = _
    rw [ih (mkResultItem t :: acc)]
    simp

theorem wikiStep_fetch_error (m : String) (top : ResultItem) (rest : List ResultItem)
    (hw : strContains top.link "wikipedia.org" = true) :
    wikiStep (.error (.other m)) (top :: rest)
      = { exc := some (.other m), box := none, lang := some (codeLang top.link),
          url := some (codeWikiApi top.link) } := by
  unfold wikiStep
  simp [hw]

theorem tryRest_wiki_error (m : String) (osm : OsmOutcome) (info qrs : J)
    (top : String × String × String × String)
    (rest : List (String × String × String × String))
    (hw : strContains top.2.1 "wikipedia.org" = true) :
    tryRest (.error (.other m)) osm (mkSearchData info ((top :: rest).map mkItemJ) qrs)
      = { exc := some (.other m),
          vars :=
            { initVars with
              results := (top :: rest).map mkResultItem
              info := some (pyOr info (.obj [])) },
          wikiLang := some (codeLang top.2.1), wikiUrl := some (codeWikiApi top.2.1) } := by
  have l1 : jLookup [("searchInformation", info),
      ("items", J.arr (mkItemJ top :: rest.map mkItemJ)), ("queries", qrs)]
      "searchInformation" = some info := rfl
  have l2 : jLookup [("searchInformation", info),
      ("items", J.arr (mkItemJ top :: rest.map mkItemJ)), ("queries", qrs)] "items"
      = some (J.arr (mkItemJ top :: rest.map mkItemJ)) := rfl
  have hor : pyOr (J.arr (mkItemJ top :: rest.map mkItemJ)) (J.arr [])
      = J.arr (mkItemJ top :: rest.map mkItemJ) := by
    simp [pyOr, jTruthy]
  unfold tryRest mkSearchData
  simp only [l1, l2, Option.getD_some, List.map_cons, hor, buildResults_cons,
    buildItem_mkItemJ, buildResults_map, List.reverse_nil, List.nil_append,
    List.reverse_singleton, List.singleton_append,
    wikiStep_fetch_error m (mkResultItem top) (rest.map mkResultItem) hw]
  rfl

/-- **C1** is a code bug: on any non-2xx search response the `HTTPError`
handler itself raises `TypeError` (it concatenates the string `"HTTP "`
with the integer status code), so the request produces an uncaught
exception — *not* a composed response whose error message starts with
"HTTP 403".  Shown for the web and image paths at the failing input
(HTTP 403, body "Forbidden"), and for the handler expression at every
status code and body. -/
theorem c1_http_error_handler_crashes :
    (home envHttp403 stEmpty "cats" "1").result = .error typeConcatError
    ∧ (images true (.httpError 403 "Forbidden") 0 "2026-10-12" stEmpty "cats" "1").result
        = .error typeConcatError
    ∧ (∀ (code : Int) (body : String), httpErrorMessage code body = .error typeConcatError) :=
  ⟨rfl, rfl, fun _ _ => rfl⟩

/-- **C2, counterexample**: with a successful search (one result, top link
an encyclopedia article, a `nextPage` cursor present) and an encyclopedia
fetch that raises `"boom"`, the composed response *does* carry the
user-facing error `"boom"`, and the pagination cursors are *not*
produced — refuting "never carries a user-facing error; the place box and
pagination cursors are still produced as usual" (the search results
themselves are kept: one result). -/
theorem c2_counterexample :
    ((home envWikiBoom stEmpty "paris" "1").result.toOption.map fun r =>
      (r.error, r.results.length, r.wiki_box.isNone, r.osm_box.isNone,
        r.next_start.isNone, r.prev_start.isNone))
      = some (some "boom", 1, true, true, true, true) := rfl

/-- **C2, amended**: when the search succeeds (cache empty, items built
from string fields, top link an encyclopedia link) and the encyclopedia
fetch raises a non-`HTTPError` exception with message `m`, the composed
response keeps the already-built search results and omits the
encyclopedia box, but carries the user-facing error `m`, and neither the
place box nor the pagination cursors are produced. -/
theorem c2_wiki_fetch_failure_surfaces_error
    (q m startArg : String) (top : String × String × String × String)
    (rest : List (String × String × String × String)) (info qrs : J) (osm : OsmOutcome)
    (now : Int) (today : String) (counter : Counter)
    (hq : pyStrip q = q) (hq' : q ≠ "")
    (hw : strContains top.2.1 "wikipedia.org" = true) :
    (home { cfgOK := true, google := .ok (mkSearchData info ((top :: rest).map mkItemJ) qrs),
            wiki := .error (.other m), osm := osm, now := now, today := today }
        { cache := [], counter := counter } q startArg).result
      = .ok { q := q, results := (top :: rest).map mkResultItem,
              info := some (pyOr info (.obj [])), error := some m,
              prev_start := none, next_start := none, wiki_box := none, osm_box := none,
              count := (recordCall counter today).count } := by
  unfold home
  rw [hq, if_neg hq']
  rw [google_search_miss_ok (mkSearchData info ((top :: rest).map mkItemJ) qrs) now today
    { cache := [], counter := counter } q ((pyInt startArg).getD 1) 10 none rfl]
  simp only [tryRest_wiki_error m osm info qrs top rest hw]
  rfl

/-- Witness for C2 (amended) at a concrete scenario. -/
theorem c2_witness :
    (home { cfgOK := true,
            google := .ok (mkSearchData (J.obj [])
              ([("Paris", "https://fr.wikipedia.org/wiki/Paris", "fr.wikipedia.org",
                "Cap.")].map mkItemJ) (J.obj [])),
            wiki := .error (.other "boom"), osm := .ok (.arr []), now := 0,
            today := "2026-10-12" }
        { cache := [], counter := { date := "2026-10-12", count := 0 } } "paris" "7").result
      = .ok { q := "paris",
              results := [("Paris", "https://fr.wikipedia.org/wiki/Paris",
                "fr.wikipedia.org", "Cap.")].map mkResultItem,
              info := some (pyOr (J.obj []) (.obj [])), error := some "boom",
              prev_start := none, next_start := none, wiki_box := none, osm_box := none,
              count := (recordCall { date := "2026-10-12", count := 0 } "2026-10-12").count } :=
  c2_wiki_fetch_failure_surfaces_error "paris" "boom" "7"
    ("Paris", "https://fr.wikipedia.org/wiki/Paris", "fr.wikipedia.org", "Cap.") []
    (J.obj []) (J.obj []) (.ok (.arr [])) 0 "2026-10-12"
    { date := "2026-10-12", count := 0 } (by decide) (by decide) (by decide)

/-- **C9**: the language used for the summary fetch is the first
dot-separated component of the URL's host, with "en" whenever no host can
be determined: the code's derivation (`codeLang`, used by the composer)
coincides with the spec's formula (`specLang`) on every URL; on every
composed request whose top link contains the encyclopedia domain the
observed fetch language is `specLang` of that link; concretely a
`fr.wikipedia.org` link yields "fr" and a host-less
`wikipedia.org/wiki/X` link yields "en". -/
theorem c9_wiki_language_from_subdomain :
    (∀ link : String, codeLang link = specLang link)
    ∧ (∀ (q m startArg : String) (top : String × String × String × String)
        (rest : List (String × String × String × String)) (info qrs : J)
        (osm : OsmOutcome) (now : Int) (today : String) (counter : Counter),
        pyStrip q = q → q ≠ "" → strContains top.2.1 "wikipedia.org" = true →
        (home { cfgOK := true,
                google := .ok (mkSearchData info ((top :: rest).map mkItemJ) qrs),
                wiki := .error (.other m), osm := osm, now := now, today := today }
            { cache := [], counter := counter } q startArg).wikiLang
          = some (specLang top.2.1))
    ∧ (home envWikiBoom stEmpty "paris" "1").wikiLang = some "fr"
    ∧ (home envWikiNoHost stEmpty "x" "1").wikiLang = some "en" := by
  have hcs : ∀ link : String, codeLang link = specLang link := by
    intro link
    unfold codeLang specLang
    by_cases h : urlNetloc link = "" <;> simp [h]
  refine ⟨hcs, ?_, rfl, rfl⟩
  intro q m startArg top rest info qrs osm now today counter hq hq' hw
  unfold home
  rw [hq, if_neg hq']
  rw [google_search_miss_ok (mkSearchData info ((top :: rest).map mkItemJ) qrs) now today
    { cache := [], counter := counter } q ((pyInt startArg).getD 1) 10 none rfl]
  simp only [tryRest_wiki_error m osm info qrs top rest hw]
  rw [← hcs top.2.1]
  rfl

/-- Witness for C9 at a concrete composed request. -/
theorem c9_witness :
    (home { cfgOK := true,
            google := .ok (mkSearchData (J.obj [])
              ([("P", "https://de.wikipedia.org/wiki/Berlin", "de.wikipedia.org",
                "s")].map mkItemJ) (J.obj [])),
            wiki := .error (.other "x"), osm := .ok (.arr []), now := 0,
            today := "2026-10-12" }
        { cache := [], counter := { date := "2026-10-12", count := 0 } } "berlin" "1").wikiLang
      = some (specLang "https://de.wikipedia.org/wiki/Berlin") :=
  c9_wiki_language_from_subdomain.2.1 "berlin" "x" "1"
    ("P", "https://de.wikipedia.org/wiki/Berlin", "de.wikipedia.org", "s") []
    (J.obj []) (J.obj []) (.ok (.arr [])) 0 "2026-10-12"
    { date := "2026-10-12", count := 0 } (by decide) (by decide) (by decide)

end Onyx
